import Mathlib

/-!
Shallow embedding of the `mcp-boundary` decision-analysis pipeline.

The repository implements a five-stage pure pipeline
`analyzeDecision : problemText → DecisionAnalysis`:
reframe (src/analyzers/reframe.ts), variable extraction
(src/analyzers/variables.ts), strategy generation
(src/analyzers/strategies.ts), risk distribution (risk.ts, provided as
src/unnamed/part_001) and bias detection (src/analyzers/bias.ts).

Texts are embedded as `List Char`; JavaScript regular expressions used by
the source (alternations of literal pieces, optionally separated by `.*`,
with an optional case-insensitive flag) are embedded as `RPat` together
with a matcher reproducing `RegExp.test` and `String.match` with the `g`
flag (leftmost match, first alternative, greedy `.*`, scan resumes at the
end of the previous match).  JavaScript numbers are embedded as `ℚ`
(every quantity the pipeline computes is an exact decimal fraction) and
`Math.round` as `⌊x + 1/2⌋`, its exact behaviour on non-negative values.
-/

namespace Boundary

abbrev Chars := List Char

/-- Character comparison; `ci = true` is the JS `i` flag (case-insensitive). -/
def ceq (ci : Bool) (a b : Char) : Bool :=
  if ci then a.toLower == b.toLower else a == b

/-- Does the literal piece `p` start at the head of `t` (compared with `ceq ci`)? -/
def pieceAt (ci : Bool) : Chars → Chars → Bool
  | [], _ => true
  | _ :: _, [] => false
  | a :: as, b :: bs => ceq ci a b && pieceAt ci as bs

/-- Does the literal piece `p` occur in `t` at exactly position `i`? -/
def litAt (ci : Bool) (t : Chars) (i : Nat) (p : Chars) : Bool :=
  pieceAt ci p (t.drop i)

/-- Do the literal pieces occur, in order and without overlap, at positions `≥ pos`?
This is the `test` semantics of a piece sequence joined by `.*`. -/
def seqMatchesFrom (ci : Bool) (t : Chars) : List Chars → Nat → Bool
  | [], _ => true
  | p :: ps, pos =>
      (List.range (t.length + 1)).any fun j =>
        decide (pos ≤ j) && litAt ci t j p && seqMatchesFrom ci t ps (j + p.length)

/-- Does the alternative (pieces joined by `.*`) match with its first piece anchored at `i`? -/
def altMatchesAt (ci : Bool) (t : Chars) (i : Nat) : List Chars → Bool
  | [] => true
  | p :: ps => litAt ci t i p && seqMatchesFrom ci t ps (i + p.length)

/-- A JS regular expression of the shape used throughout the repository:
alternatives (split on `|`), each a sequence of literal pieces separated by `.*`. -/
structure RPat where
  ci : Bool
  alts : List (List Chars)
deriving DecidableEq

/-- `RegExp.test`: does some alternative match at some position? -/
def rtest (pat : RPat) (t : Chars) : Bool :=
  (List.range (t.length + 1)).any fun i =>
    pat.alts.any fun alt => altMatchesAt pat.ci t i alt

/-- End position of the backtracking-greedy match of floating pieces starting at `pos`:
each `.*` consumes as much as possible while the remaining pieces still fit. -/
def greedySeqEnd (ci : Bool) (t : Chars) : List Chars → Nat → Option Nat
  | [], pos => some pos
  | p :: ps, pos =>
    match (List.range (t.length + 1)).reverse.find? (fun j =>
        decide (pos ≤ j) && litAt ci t j p && seqMatchesFrom ci t ps (j + p.length)) with
    | none => none
    | some j => greedySeqEnd ci t ps (j + p.length)

/-- End position of the greedy match of an alternative anchored at `i`. -/
def altGreedyEnd (ci : Bool) (t : Chars) (i : Nat) : List Chars → Option Nat
  | [] => some i
  | p :: ps => if litAt ci t i p then greedySeqEnd ci t ps (i + p.length) else none

/-- Leftmost match at a position `≥ start`: its start and (greedy) end.
Alternatives are tried in order, as in JS. -/
def firstMatchFrom (pat : RPat) (t : Chars) (start : Nat) : Option (Nat × Nat) :=
  match (List.range (t.length + 1)).find? (fun i =>
      decide (start ≤ i) && pat.alts.any fun alt => altMatchesAt pat.ci t i alt) with
  | none => none
  | some i =>
    match pat.alts.find? (fun alt => altMatchesAt pat.ci t i alt) with
    | none => none
    | some alt =>
      match altGreedyEnd pat.ci t i alt with
      | none => none
      | some e => some (i, e)

/-- Fuelled loop of `String.match` with the `g` flag: collect successive
non-overlapping matches, resuming after each match (advancing by one on an
empty match, as JS does). -/
def jsMatchAllAux (pat : RPat) (t : Chars) : Nat → Nat → List Chars
  | 0, _ => []
  | fuel + 1, start =>
    match firstMatchFrom pat t start with
    | none => []
    | some (i, e) =>
      (t.drop i).take (e - i) :: jsMatchAllAux pat t fuel (if i < e then e else i + 1)

/-- `String.match` with the `g` flag: the list of matched substrings. -/
def jsMatchAll (pat : RPat) (t : Chars) : List Chars :=
  jsMatchAllAux pat t (t.length + 1) 0

/-- Case-sensitive alternation of plain literals, e.g. `/焦虑|担心|害怕/`. -/
def altsOf (ws : List String) : RPat :=
  ⟨false, ws.map fun w => [w.data]⟩

/-- A single case-sensitive literal pattern, e.g. `/听说/`. -/
def litOf (w : String) : RPat :=
  ⟨false, [[w.data]]⟩

/-- A single case-sensitive alternative whose pieces are separated by `.*`,
e.g. `/别人.*成功/`. -/
def seqOf (ws : List String) : RPat :=
  ⟨false, [ws.map (·.data)]⟩

/-- JS `String.prototype.includes` (case-sensitive substring containment). -/
def strContains (t : Chars) (s : Chars) : Bool :=
  (List.range (t.length + 1)).any fun i => pieceAt false s (t.drop i)

/-- `includes` on `String`s. -/
def sContains (t s : String) : Bool :=
  strContains t.data s.data

-- ======================= data model (src/types/index.ts) =======================

structure ReframedProblem where
  original : String
  reframed : String
  emotionalElements : List String
deriving DecidableEq

structure VariablesAndConstraints where
  goals : List String
  keyVariables : List String
  hardConstraints : List String
  uncertainties : List String
deriving DecidableEq

structure Strategy where
  id : String
  name : String
  type : String
  typeLabel : String
  preconditions : List String
  executionCost : String
  triggerPoints : List String
  worstCase : String
deriving DecidableEq, Inhabited

structure StrategySpace where
  strategies : List Strategy
deriving DecidableEq

structure OutcomeDistribution where
  probability : ℚ
  description : String
deriving DecidableEq

structure RiskRewardAnalysis where
  strategyId : String
  strategyName : String
  distributions : List OutcomeDistribution
deriving DecidableEq, Inhabited

structure CognitiveBias where
  type : String
  typeLabel : String
  description : String
  mitigation : String
deriving DecidableEq, Inhabited

structure BiasWarnings where
  biases : List CognitiveBias
deriving DecidableEq

structure DecisionAnalysis where
  reframedProblem : ReframedProblem
  variablesAndConstraints : VariablesAndConstraints
  strategySpace : StrategySpace
  riskRewardAnalysis : List RiskRewardAnalysis
  biasWarnings : BiasWarnings
deriving DecidableEq

-- ======================= reframe (src/analyzers/reframe.ts) =======================

structure EPat where
  pattern : RPat
  type : String
deriving DecidableEq

def EMOTIONAL_PATTERNS : List EPat := [
  ⟨altsOf (["焦虑", "担心", "害怕", "恐惧", "紧张"]), "焦虑情绪"⟩,
  ⟨altsOf (["愤怒", "生气", "气愤", "不爽", "烦"]), "愤怒情绪"⟩,
  ⟨altsOf (["绝望", "无望", "没希望", "完蛋"]), "绝望情绪"⟩,
  ⟨⟨true, [["兴奋".data], ["激动".data], ["太棒了".data], ["amazing".data]]⟩, "过度兴奋"⟩,
  ⟨altsOf (["必须", "一定要", "只能", "不得不"]), "强迫性表达"⟩,
  ⟨altsOf (["肯定会", "绝对会", "一定会", "必然"]), "过度确定"⟩,
  ⟨⟨false, [["再不".data, "就".data, "来不及".data],
            ["错过".data, "机会".data], ["最后".data, "机会".data]]⟩, "紧迫感假设"⟩,
  ⟨⟨false, [["别人都".data], ["大家都".data], ["很多人都".data],
            ["身边".data, "都".data]]⟩, "群体压力"⟩,
  ⟨altsOf (["卷", "内卷", "太卷", "卷死"]), "竞争焦虑"⟩,
  ⟨altsOf (["润", "跑路", "逃离", "逃"]), "逃避性表达"⟩,
  ⟨altsOf (["废了", "完了", "凉了", "没戏"]), "灾难化思维"⟩,
  ⟨altsOf (["是不是该", "要不要", "该不该"]), "决策焦虑"⟩]

def STANCE_PATTERNS : List EPat := [
  ⟨seqOf (["我觉得", "应该"]), "预设结论"⟩,
  ⟨seqOf (["明显", "更好"]), "预设偏好"⟩,
  ⟨litOf ("傻子才"), "贬低选项"⟩,
  ⟨litOf ("谁不想"), "假设普遍性"⟩]

/-- One pattern library pass of `identifyEmotionalElements`: every category whose
pattern matches contributes `"<type>：'<matches joined by ', '>'"`. -/
def elementsFor (pats : List EPat) (t : Chars) : List String :=
  pats.filterMap fun pr =>
    match jsMatchAll pr.pattern t with
    | [] => none
    | ms => some (pr.type ++ ("：'") ++
        String.intercalate ("', '") (ms.map fun m => String.mk m) ++ ("'"))

def identifyEmotionalElements (text : Chars) : List String :=
  elementsFor EMOTIONAL_PATTERNS text ++ elementsFor STANCE_PATTERNS text

def careerPat : RPat := altsOf (["工作", "职业", "转行", "跳槽", "offer", "公司"])
def movePat : RPat := altsOf (["出国", "移民", "润", "国外", "海外", "留学"])
def eduPat : RPat := altsOf (["读书", "学习", "考研", "考博", "学历", "深造"])
def financePat : RPat := altsOf (["投资", "理财", "买房", "股票", "创业", "赚钱"])
def relationPat : RPat := altsOf (["结婚", "离婚", "分手", "恋爱", "家庭", "孩子"])

def extractCoreThemes (text : Chars) : List String :=
  let themes :=
    (if rtest careerPat text then ["职业发展"] else []) ++
    (if rtest movePat text then ["地理迁移"] else []) ++
    (if rtest eduPat text then ["教育投资"] else []) ++
    (if rtest financePat text then ["财务决策"] else []) ++
    (if rtest relationPat text then ["人生关系"] else [])
  if themes.isEmpty then ["人生决策"] else themes

/-- The fixed templates of `generateReframedQuestion`, keyed by theme, with the
joined theme string already substituted for the interpolation. -/
def reframeTemplates (themeStr : String) : List (String × String) := [
  ("职业发展", ("在当前个人条件（技能、经验、资源）和市场环境下，不同") ++ themeStr ++
    ("路径的长期收益与风险结构是什么？")),
  ("地理迁移", ("在给定个人背景、目标和约束条件下，") ++ themeStr ++
    ("相比现状的长期价值与成本结构是什么？")),
  ("教育投资", ("在当前阶段进行") ++ themeStr ++ ("，其投入产出比和机会成本结构是什么？")),
  ("财务决策", themeStr ++ ("在不同情景下的风险收益分布和个人承受能力匹配度如何？")),
  ("人生关系", themeStr ++ ("决策涉及哪些关键变量、约束条件和不确定性？")),
  ("人生决策", ("该决策涉及哪些关键变量、目标、约束和不确定性因素？不同选择的结构性差异是什么？"))]

def genericReframed : String :=
  "该决策涉及哪些关键变量、目标、约束和不确定性因素？不同选择的结构性差异是什么？"

def generateReframedQuestion (themes : List String) : String :=
  let themeStr := String.intercalate ("与") themes
  match themes with
  | [] => genericReframed
  | th :: _ =>
    match (reframeTemplates themeStr).lookup th with
    | some tpl => tpl
    | none => genericReframed

def analyzeAndReframe (problemText : String) : ReframedProblem :=
  let emotionalElements := identifyEmotionalElements problemText.data
  let themes := extractCoreThemes problemText.data
  let reframed := generateReframedQuestion themes
  ⟨problemText, reframed, emotionalElements⟩

-- ======================= variables (src/analyzers/variables.ts) =======================

def GOAL_KEYWORDS : List (String × List String) := [
  ("长期收入稳定性", ["收入", "工资", "薪资", "赚钱", "财务", "经济"]),
  ("职业发展空间", ["发展", "成长", "晋升", "职业", "前途", "机会"]),
  ("生活质量", ["生活", "幸福", "快乐", "舒适", "自由"]),
  ("身份与安全边际", ["稳定", "安全", "保障", "身份", "绿卡", "永居"]),
  ("技术/技能成长", ["技术", "技能", "学习", "成长", "提升"]),
  ("家庭和谐", ["家庭", "孩子", "父母", "配偶", "家人"]),
  ("社会认可", ["地位", "面子", "认可", "尊重", "成功"]),
  ("个人自主权", ["自由", "自主", "选择", "控制", "独立"])]

def VARIABLE_KEYWORDS : List (String × List String) := [
  ("年龄", ["年龄", "岁", "年纪", "年轻", "老了"]),
  ("技能可迁移性", ["技能", "能力", "经验", "专业", "技术"]),
  ("资金储备", ["钱", "存款", "资金", "积蓄", "财务"]),
  ("语言能力", ["语言", "英语", "外语", "口语"]),
  ("人脉网络", ["人脉", "关系", "朋友", "圈子", "资源"]),
  ("行业周期", ["行业", "市场", "经济", "周期", "风口"]),
  ("家庭状况", ["家庭", "孩子", "配偶", "父母"]),
  ("健康状况", ["健康", "身体", "精力"]),
  ("学历背景", ["学历", "学校", "专业", "教育"]),
  ("工作经验", ["经验", "工作", "履历", "背景"])]

def CONSTRAINT_KEYWORDS : List (String × List String) := [
  ("签证/政策限制", ["签证", "政策", "移民", "绿卡", "身份"]),
  ("资金约束", ["钱不够", "成本", "费用", "负担不起"]),
  ("时间窗口", ["时间", "来不及", "年龄限制", "窗口期"]),
  ("家庭责任", ["家庭", "孩子", "父母", "老人", "照顾"]),
  ("合同/承诺约束", ["合同", "竞业", "违约", "承诺"]),
  ("学历/资质要求", ["学历", "资质", "证书", "认证"]),
  ("语言门槛", ["语言", "英语", "不会"]),
  ("行业准入", ["准入", "门槛", "资格", "限制"])]

def UNCERTAINTY_KEYWORDS : List (String × List String) := [
  ("政策变化", ["政策", "法规", "政府", "制度"]),
  ("经济周期波动", ["经济", "市场", "行情", "周期", "环境"]),
  ("行业发展趋势", ["行业", "技术", "趋势", "未来"]),
  ("个人境遇变化", ["意外", "变故", "突发", "运气"]),
  ("国际形势", ["国际", "关系", "形势", "地缘"]),
  ("技术变革", ["AI", "技术", "变革", "替代", "自动化"])]

/-- A label is included once if any of its keywords is a substring of the text;
label order is map-declaration order. -/
def matchKeywords (text : Chars) (keywordMap : List (String × List String)) : List String :=
  keywordMap.filterMap fun lk =>
    if lk.2.any (fun keyword => strContains text keyword.data) then some lk.1 else none

def getDefaultGoals : List String :=
  ["决策的长期价值最大化", "风险在可承受范围内", "保留调整和退出的灵活性"]

def getDefaultVariables : List String :=
  ["个人能力与资源", "时间投入", "外部机会与环境"]

def getDefaultConstraints : List String :=
  ["可用资源（时间、金钱、精力）的有限性", "信息不完整性"]

def getDefaultUncertainties : List String :=
  ["外部环境变化", "个人境遇变化", "执行效果的不确定性"]

/-- The search buffer of `analyzeVariables`: original and reframed text joined by a space. -/
def combinedTextOf (reframedProblem : ReframedProblem) : Chars :=
  (reframedProblem.original ++ (" ") ++ reframedProblem.reframed).data

def analyzeVariables (reframedProblem : ReframedProblem) : VariablesAndConstraints :=
  let combinedText := combinedTextOf reframedProblem
  let goals := matchKeywords combinedText GOAL_KEYWORDS
  let keyVariables := matchKeywords combinedText VARIABLE_KEYWORDS
  let hardConstraints := matchKeywords combinedText CONSTRAINT_KEYWORDS
  let uncertainties := matchKeywords combinedText UNCERTAINTY_KEYWORDS
  { goals := if goals.isEmpty then getDefaultGoals else goals
    keyVariables := if keyVariables.isEmpty then getDefaultVariables else keyVariables
    hardConstraints := if hardConstraints.isEmpty then getDefaultConstraints else hardConstraints
    uncertainties := if uncertainties.isEmpty then getDefaultUncertainties else uncertainties }

-- ======================= strategies (src/analyzers/strategies.ts) =======================

structure StrategyCharacteristics where
  timing : String
  riskLevel : String
  resourceCommitment : String
deriving DecidableEq

structure StrategyConfig where
  id : String
  type : String
  typeLabel : String
  nameTemplate : String
  characteristics : StrategyCharacteristics
deriving DecidableEq

def STRATEGY_CONFIGS : List StrategyConfig := [
  ⟨"A", "aggressive", "激进型", "立即行动", ⟨"立即执行", "高风险高回报", "全力投入"⟩⟩,
  ⟨"B", "conservative", "保守型", "观望等待", ⟨"延迟执行", "低风险稳健", "保持现状"⟩⟩,
  ⟨"C", "hedge", "对冲型", "双轨并行", ⟨"逐步推进", "分散风险", "部分投入"⟩⟩,
  ⟨"D", "exit", "止损型", "转向放弃", ⟨"及时止损", "规避风险", "转移资源"⟩⟩]

def generatePreconditions (config : StrategyConfig)
    (vars : VariablesAndConstraints) : List String :=
  if config.type == ("aggressive") then
    ["对目标有清晰认知且决心坚定", "具备基本的资源和能力基础", "能够承受失败的最坏后果"] ++
      (if vars.keyVariables.contains ("资金储备") then ["有足够的资金支持初期投入"] else [])
  else if config.type == ("conservative") then
    ["当前状态可持续，无紧迫压力", "等待期间有持续信息收集渠道", "延迟行动不会导致机会永久丧失"]
  else if config.type == ("hedge") then
    ["有精力和资源同时维护多条路径", "两条路径之间不存在严重冲突", "能够设定清晰的决策触发点"]
  else if config.type == ("exit") then
    ["存在可行的替代方向", "沉没成本在可接受范围内", "能够理性评估而非情绪化放弃"]
  else []

def generateExecutionCost (config : StrategyConfig)
    (_variables : VariablesAndConstraints) : String :=
  let costs : List String :=
    if config.type == ("aggressive") then
      ["时间：需要全力投入，可能持续数月至数年", "资金：需要前期投入，回报周期不确定",
       "机会成本：放弃其他可能的路径", "心理成本：承受较大的不确定性压力"]
    else if config.type == ("conservative") then
      ["时间：等待期间的时间消耗", "机会成本：可能错过最佳窗口期", "心理成本：持续的不确定感和焦虑"]
    else if config.type == ("hedge") then
      ["精力：需要同时维护多条路径，可能分散注意力", "资金：可能需要双重投入", "效率损失：无法全力投入任一方向"]
    else if config.type == ("exit") then
      ["沉没成本：之前的投入可能无法回收", "心理成本：需要接受'失败'或'放弃'的标签", "重建成本：在新方向重新开始的投入"]
    else []
  String.intercalate ("；") costs

def generateTriggerPoints (config : StrategyConfig)
    (vars : VariablesAndConstraints) : List String :=
  if config.type == ("aggressive") then
    ["关键资源和条件已到位", "外部环境出现有利窗口", "继续等待的成本开始超过行动风险"]
  else if config.type == ("conservative") then
    ["获得更多关键信息", "不确定性显著降低", "出现明确的正面或负面信号"] ++
      (if vars.uncertainties.contains ("政策变化") then ["政策环境明朗化"] else [])
  else if config.type == ("hedge") then
    ["设定明确的时间节点进行评估", "任一路径出现决定性进展", "资源消耗达到预设阈值"]
  else if config.type == ("exit") then
    ["核心假设被证伪", "成本超出预设止损线", "出现更优的替代选项", "个人状况发生重大变化"]
  else []

/-- In the TypeScript source the switch is exhaustive over the four strategy types
and yields `undefined` on any other string; we return `""` there, a case never
exercised by the four configurations. -/
def generateWorstCase (config : StrategyConfig) (_constraints : List String) : String :=
  if config.type == ("aggressive") then
    "全力投入后失败，损失大量时间、资金和机会成本，且难以回到原点。可能需要承受较长的恢复期。"
  else if config.type == ("conservative") then
    "等待期间窗口关闭，最佳时机永久错过。或者环境恶化，后续行动成本大幅上升。"
  else if config.type == ("hedge") then
    "两边都未能取得实质进展，资源分散导致竞争力不足。最终可能两边都失去机会。"
  else if config.type == ("exit") then
    "放弃后原方向意外变好，产生强烈后悔。或者新方向也不如预期，陷入'草地更绿'的循环。"
  else ""

def generateStrategies (_reframedProblem : ReframedProblem)
    (vars : VariablesAndConstraints) : StrategySpace :=
  ⟨STRATEGY_CONFIGS.map fun config =>
    { id := config.id
      name := ("策略 ") ++ config.id ++ ("：") ++ config.nameTemplate
      type := config.type
      typeLabel := config.typeLabel
      preconditions := generatePreconditions config vars
      executionCost := generateExecutionCost config vars
      triggerPoints := generateTriggerPoints config vars
      worstCase := generateWorstCase config vars.hardConstraints }⟩

-- ======================= risk (src/unnamed/part_001, risk.ts) =======================

structure TemplateEntry where
  probability : ℚ
  template : String
deriving DecidableEq

structure DistributionTemplate where
  strategyType : String
  distributions : List TemplateEntry
deriving DecidableEq

def DISTRIBUTION_TEMPLATES : List DistributionTemplate := [
  ⟨"aggressive", [
    ⟨20, "目标达成，收益符合或超出预期"⟩,
    ⟨35, "部分达成，结果低于预期但有所收获"⟩,
    ⟨30, "遇到较大阻力，需要调整计划或延长周期"⟩,
    ⟨15, "执行失败，需要承受损失并重新规划"⟩]⟩,
  ⟨"conservative", [
    ⟨25, "等待期间情况明朗，获得更好的行动时机"⟩,
    ⟨30, "情况未明显变化，继续处于等待状态"⟩,
    ⟨25, "窗口期收窄，后续行动成本上升"⟩,
    ⟨20, "机会丧失，需要转向其他路径"⟩]⟩,
  ⟨"hedge", [
    ⟨20, "主路径成功，备选路径平稳退出"⟩,
    ⟨35, "两条路径都有进展，需要做出最终选择"⟩,
    ⟨30, "精力分散，两条路径进展都不理想"⟩,
    ⟨15, "资源耗尽，被迫放弃其中一条或两条路径"⟩]⟩,
  ⟨"exit", [
    ⟨30, "成功转向，新方向发展良好"⟩,
    ⟨35, "转向后需要较长适应期，短期内有阵痛"⟩,
    ⟨20, "新方向也遇到挑战，需要再次调整"⟩,
    ⟨15, "产生后悔情绪，对放弃的路径念念不忘"⟩]⟩]

/-- `Math.min` on exact values. -/
def jsMin (a b : ℚ) : ℚ :=
  if a ≤ b then a else b

/-- `Math.max` on exact values. -/
def jsMax (a b : ℚ) : ℚ :=
  if b ≤ a then a else b

/-- `Math.round` of JavaScript on the (always non-negative) values this code
rounds: half-up, i.e. `⌊q + 1/2⌋`. -/
def jsRound (q : ℚ) : ℚ :=
  ((⌊q + 1 / 2⌋ : ℤ) : ℚ)

def adjustForUncertainties (distributions : List OutcomeDistribution)
    (uncertainties : List String) : List OutcomeDistribution :=
  let uncertaintyLevel : ℚ := min ((uncertainties.length : ℚ) / 4) 1
  distributions.enum.map fun d =>
    let adjustment := if d.1 == 1 || d.1 == 2 then -5 * uncertaintyLevel
      else 5 / 2 * uncertaintyLevel
    { d.2 with probability := jsMax 5 (jsMin 50 (d.2.probability + adjustment)) }

def normalizeProbabilities (distributions : List OutcomeDistribution) :
    List OutcomeDistribution :=
  let total := (distributions.map (·.probability)).sum
  distributions.map fun d =>
    { d with probability := jsRound (d.probability / total * 100) }

/-- Body of the `map` in `analyzeRisk`: the analysis of one strategy. -/
def analyzeRiskOne (strategy : Strategy) (vars : VariablesAndConstraints) :
    RiskRewardAnalysis :=
  match DISTRIBUTION_TEMPLATES.find? (fun t => t.strategyType == strategy.type) with
  | none =>
    { strategyId := strategy.id
      strategyName := strategy.name
      distributions := [
        ⟨25, "结果好于预期"⟩, ⟨50, "结果符合预期"⟩, ⟨25, "结果低于预期"⟩] }
  | some template =>
    let distributions := template.distributions.map fun d =>
      ({ probability := d.probability, description := d.template } : OutcomeDistribution)
    let distributions := adjustForUncertainties distributions vars.uncertainties
    let distributions := normalizeProbabilities distributions
    { strategyId := strategy.id
      strategyName := strategy.name
      distributions := distributions }

def analyzeRisk (strategySpace : StrategySpace) (vars : VariablesAndConstraints) :
    List RiskRewardAnalysis :=
  strategySpace.strategies.map fun strategy => analyzeRiskOne strategy vars

-- ======================= bias (src/analyzers/bias.ts) =======================

structure BiasRule where
  type : String
  typeLabel : String
  patterns : List RPat
  description : String
  mitigation : String
deriving DecidableEq

def BIAS_RULES : List BiasRule := [
  ⟨"survivorship", "幸存者偏差",
    [seqOf (["别人", "成功"]), seqOf (["有人", "做到"]), seqOf (["朋友", "实现"]),
     seqOf (["看到", "案例"]), seqOf (["成功", "例子"]), litOf ("XXX都能"), litOf ("人家都")],
    "可能将个别成功案例误认为普遍路径，忽视了大量未能成功的案例",
    "建议：主动寻找失败案例，了解失败的原因和概率。关注基础率而非个案。"⟩,
  ⟨"narrative", "叙事谬误",
    [litOf ("听说"), litOf ("据说"), litOf ("有个故事"), seqOf (["看了", "文章"]),
     litOf ("网上说"), litOf ("大V说"), litOf ("博主"), litOf ("up主")],
    "可能被故事和叙事影响决策，而非基于数据和系统性分析",
    "建议：区分故事和数据，寻找系统性的统计信息。警惕情绪化的成功学叙事。"⟩,
  ⟨"groupPressure", "群体压力",
    [litOf ("大家都"), litOf ("别人都"), seqOf (["身边", "都"]), litOf ("朋友都"),
     litOf ("同事都"), litOf ("同龄人"), seqOf (["周围", "人"]), litOf ("趋势"), litOf ("风口")],
    "可能因为'大家都这样做'而产生跟风冲动，忽视了个人条件的差异性",
    "建议：明确自己的独特条件和目标，不同人适合不同路径。避免为了'不落后'而盲目跟风。"⟩,
  ⟨"shortTermFocus", "短期聚焦偏差",
    [litOf ("马上"), litOf ("立刻"), litOf ("赶紧"), litOf ("来不及"), litOf ("错过"),
     seqOf (["最后", "机会"]), seqOf (["窗口", "关闭"]), seqOf (["再不", "就"])],
    "可能过度关注短期结果和紧迫感，而忽视长期结构性因素",
    "建议：拉长时间维度思考，区分'真紧迫'和'假紧迫'。多数人生决策的影响是长期的。"⟩,
  ⟨"confirmationBias", "确认偏差",
    [seqOf (["我觉得", "应该"]), seqOf (["我认为", "对"]), seqOf (["明显", "更好"]),
     litOf ("肯定是"), litOf ("毫无疑问"), litOf ("怎么看都")],
    "可能只关注支持已有观点的信息，忽视或贬低相反的证据",
    "建议：主动寻找反对意见，尝试论证相反立场。问自己：'什么情况下我会改变想法？'"⟩,
  ⟨"anchoringBias", "锚定效应",
    [litOf ("一开始"), litOf ("最初"), seqOf (["第一", "想法"]), litOf ("本来以为"),
     seqOf (["原本", "计划"])],
    "可能过度依赖最初获得的信息或第一印象，难以根据新信息调整判断",
    "建议：定期重新评估假设，考虑如果从零开始会怎么选择。避免被沉没成本影响。"⟩,
  ⟨"sunkCostFallacy", "沉没成本谬误",
    [seqOf (["已经", "投入"]), seqOf (["花了", "时间"]), seqOf (["付出", "努力"]),
     seqOf (["不能", "白费"]), seqOf (["坚持", "这么久"]), seqOf (["放弃", "可惜"])],
    "可能因为已经投入的成本而坚持错误方向，无法理性止损",
    "建议：关注未来的成本和收益，而非过去的投入。问自己：'如果重新选择，还会这样做吗？'"⟩]

def EMOTIONAL_BIAS_MAP : List (String × String) := [
  ("群体压力", "groupPressure"),
  ("紧迫感假设", "shortTermFocus"),
  ("竞争焦虑", "groupPressure"),
  ("预设结论", "confirmationBias"),
  ("预设偏好", "confirmationBias")]

/-- State of the detection folds: types seen so far, biases accumulated so far. -/
abbrev BiasState := List String × List CognitiveBias

def detectStep (text : Chars) (st : BiasState) (rule : BiasRule) : BiasState :=
  if st.1.contains rule.type then st
  else if rule.patterns.any (fun pattern => rtest pattern text) then
    (st.1 ++ [rule.type],
     st.2 ++ [⟨rule.type, rule.typeLabel, rule.description, rule.mitigation⟩])
  else st

def detectBiasesFromText (text : Chars) : List CognitiveBias :=
  (BIAS_RULES.foldl (detectStep text) ([], [])).2

def inferStep (element : String) (st : BiasState) (kb : String × String) : BiasState :=
  if sContains element kb.1 && !st.1.contains kb.2 then
    match BIAS_RULES.find? (fun r => r.type == kb.2) with
    | some rule =>
      (st.1 ++ [kb.2],
       st.2 ++ [⟨rule.type, rule.typeLabel, ("从表述中检测到：") ++ element, rule.mitigation⟩])
    | none => (st.1 ++ [kb.2], st.2)
  else st

def inferBiasesFromEmotions (emotionalElements : List String) : List CognitiveBias :=
  (emotionalElements.foldl
    (fun st element => EMOTIONAL_BIAS_MAP.foldl (inferStep element) st) ([], [])).2

def mergeStep (st : BiasState) (bias : CognitiveBias) : BiasState :=
  if st.1.contains bias.type then st else (st.1 ++ [bias.type], st.2 ++ [bias])

def genericBias : CognitiveBias :=
  ⟨"other", "通用提醒", "未检测到明显的认知偏差，但请保持警惕",
   "建议：定期反思自己的假设和推理过程，寻求不同视角的意见。"⟩

def analyzeBias (reframedProblem : ReframedProblem) : BiasWarnings :=
  let textBiases := detectBiasesFromText reframedProblem.original.data
  let emotionBiases := inferBiasesFromEmotions reframedProblem.emotionalElements
  let allBiases :=
    (emotionBiases.foldl mergeStep (textBiases.map (·.type), textBiases)).2
  ⟨if allBiases.isEmpty then [genericBias] else allBiases⟩

-- ======================= pipeline (src/tools/analyze.ts, docs/architecture.md) =======================

def analyzeDecision (problemText : String) : DecisionAnalysis :=
  let reframedProblem := analyzeAndReframe problemText
  let variablesAndConstraints := analyzeVariables reframedProblem
  let strategySpace := generateStrategies reframedProblem variablesAndConstraints
  let riskRewardAnalysis := analyzeRisk strategySpace variablesAndConstraints
  let biasWarnings := analyzeBias reframedProblem
  { reframedProblem := reframedProblem
    variablesAndConstraints := variablesAndConstraints
    strategySpace := strategySpace
    riskRewardAnalysis := riskRewardAnalysis
    biasWarnings := biasWarnings }

/-- Sum of the probabilities of a distribution list. -/
def probSum (distributions : List OutcomeDistribution) : ℚ :=
  (distributions.map (·.probability)).sum

end Boundary

-- ======================= theorems =======================

namespace Boundary

/-- The uncertainty level `min(count/4, 1)` takes only five values. -/
lemma uLevel_cases (n : ℕ) :
    min ((n : ℚ) / 4) 1 = 0 ∨ min ((n : ℚ) / 4) 1 = 1/4 ∨ min ((n : ℚ) / 4) 1 = 1/2 ∨
    min ((n : ℚ) / 4) 1 = 3/4 ∨ min ((n : ℚ) / 4) 1 = 1 := by
  match n with
  | 0 => exact Or.inl (by norm_num)
  | 1 => exact Or.inr (Or.inl (by norm_num))
  | 2 => exact Or.inr (Or.inr (Or.inl (by norm_num)))
  | 3 => exact Or.inr (Or.inr (Or.inr (Or.inl (by norm_num))))
  | (n + 4) =>
    refine Or.inr (Or.inr (Or.inr (Or.inr ?_)))
    have h : (1 : ℚ) ≤ (((n + 4 : ℕ) : ℚ)) / 4 := by
      push_cast
      have h0 : (0:ℚ) ≤ (n:ℚ) := Nat.cast_nonneg n
      linarith
    exact min_eq_right h

lemma riskOne_sum_aggressive (s : Strategy) (v : VariablesAndConstraints)
    (h : s.type = "aggressive") : probSum (analyzeRiskOne s v).distributions = 100 := by
  unfold analyzeRiskOne
  rw [h]
  show probSum (normalizeProbabilities (adjustForUncertainties
    [⟨20, "目标达成，收益符合或超出预期"⟩,
     ⟨35, "部分达成，结果低于预期但有所收获"⟩,
     ⟨30, "遇到较大阻力，需要调整计划或延长周期"⟩,
     ⟨15, "执行失败，需要承受损失并重新规划"⟩] v.uncertainties)) = 100
  simp only [adjustForUncertainties]
  rcases uLevel_cases v.uncertainties.length with h5 | h5 | h5 | h5 | h5 <;>
    rw [h5] <;> with_unfolding_all rfl

lemma riskOne_sum_conservative (s : Strategy) (v : VariablesAndConstraints)
    (h : s.type = "conservative") : probSum (analyzeRiskOne s v).distributions = 100 := by
  unfold analyzeRiskOne
  rw [h]
  show probSum (normalizeProbabilities (adjustForUncertainties
    [⟨25, "等待期间情况明朗，获得更好的行动时机"⟩,
     ⟨30, "情况未明显变化，继续处于等待状态"⟩,
     ⟨25, "窗口期收窄，后续行动成本上升"⟩,
     ⟨20, "机会丧失，需要转向其他路径"⟩] v.uncertainties)) = 100
  simp only [adjustForUncertainties]
  rcases uLevel_cases v.uncertainties.length with h5 | h5 | h5 | h5 | h5 <;>
    rw [h5] <;> with_unfolding_all rfl

lemma riskOne_sum_hedge (s : Strategy) (v : VariablesAndConstraints)
    (h : s.type = "hedge") : probSum (analyzeRiskOne s v).distributions = 100 := by
  unfold analyzeRiskOne
  rw [h]
  show probSum (normalizeProbabilities (adjustForUncertainties
    [⟨20, "主路径成功，备选路径平稳退出"⟩,
     ⟨35, "两条路径都有进展，需要做出最终选择"⟩,
     ⟨30, "精力分散，两条路径进展都不理想"⟩,
     ⟨15, "资源耗尽，被迫放弃其中一条或两条路径"⟩] v.uncertainties)) = 100
  simp only [adjustForUncertainties]
  rcases uLevel_cases v.uncertainties.length with h5 | h5 | h5 | h5 | h5 <;>
    rw [h5] <;> with_unfolding_all rfl

lemma riskOne_sum_exitType (s : Strategy) (v : VariablesAndConstraints)
    (h : s.type = "exit") : probSum (analyzeRiskOne s v).distributions = 100 := by
  unfold analyzeRiskOne
  rw [h]
  show probSum (normalizeProbabilities (adjustForUncertainties
    [⟨30, "成功转向，新方向发展良好"⟩,
     ⟨35, "转向后需要较长适应期，短期内有阵痛"⟩,
     ⟨20, "新方向也遇到挑战，需要再次调整"⟩,
     ⟨15, "产生后悔情绪，对放弃的路径念念不忘"⟩] v.uncertainties)) = 100
  simp only [adjustForUncertainties]
  rcases uLevel_cases v.uncertainties.length with h5 | h5 | h5 | h5 | h5 <;>
    rw [h5] <;> with_unfolding_all rfl

/-- C1: for every input `problemText`, every `RiskRewardAnalysis` in the pipeline's
output has distributions whose probability values sum to exactly 100, after the
uncertainty adjustment and the per-bucket rounding normalization
`round(p / sum * 100)`. -/
theorem C1_probability_sum (problemText : String) :
    ∀ r ∈ (analyzeDecision problemText).riskRewardAnalysis,
      probSum r.distributions = 100 := by
  intro r hr
  have hr2 : r ∈ (generateStrategies (analyzeAndReframe problemText)
      (analyzeVariables (analyzeAndReframe problemText))).strategies.map
      (fun s => analyzeRiskOne s (analyzeVariables (analyzeAndReframe problemText))) := hr
  simp only [generateStrategies, STRATEGY_CONFIGS, List.map_cons, List.map_nil,
    List.mem_cons, List.not_mem_nil, or_false] at hr2
  rcases hr2 with h | h | h | h
  · exact h ▸ riskOne_sum_aggressive _ _ rfl
  · exact h ▸ riskOne_sum_conservative _ _ rfl
  · exact h ▸ riskOne_sum_hedge _ _ rfl
  · exact h ▸ riskOne_sum_exitType _ _ rfl

/-- Witness for C1 at a concrete input: the first risk analysis of a concrete run. -/
theorem C1_probability_sum_witness :
    probSum ((analyzeDecision ("abc")).riskRewardAnalysis.headI.distributions) = 100 :=
  C1_probability_sum ("abc") ((analyzeDecision ("abc")).riskRewardAnalysis.headI) (by
    have e : (analyzeDecision ("abc")).riskRewardAnalysis =
        (generateStrategies (analyzeAndReframe ("abc"))
          (analyzeVariables (analyzeAndReframe ("abc")))).strategies.map
          (fun s => analyzeRiskOne s (analyzeVariables (analyzeAndReframe ("abc")))) := rfl
    rw [e]
    simp only [generateStrategies, STRATEGY_CONFIGS, List.map_cons, List.headI]
    exact List.mem_cons_self _ _)

/-- C2: the analysis pipeline is deterministic — two calls of `analyzeDecision`
with the same `problemText` produce identical `DecisionAnalysis` values.  The
embedding is a pure function of the input text (the source reads no clock, no
randomness and no external state), so this is definitional. -/
theorem C2_deterministic (p1 p2 : String) (h : p1 = p2) :
    analyzeDecision p1 = analyzeDecision p2 := by
  rw [h]

/-- Witness for C2 at a concrete input. -/
theorem C2_deterministic_witness :
    analyzeDecision ("abc") = analyzeDecision ("abc") :=
  C2_deterministic ("abc") ("abc") rfl

/-- C3: for every input, `generateStrategies` returns exactly four strategies,
in order one each of types aggressive, conservative, hedge, exit with ids
A, B, C, D respectively; no type or id repeats. -/
theorem C3_strategy_completeness (rp : ReframedProblem) (v : VariablesAndConstraints) :
    (generateStrategies rp v).strategies.length = 4 ∧
    (generateStrategies rp v).strategies.map (·.id) = ["A", "B", "C", "D"] ∧
    (generateStrategies rp v).strategies.map (·.type) =
      ["aggressive", "conservative", "hedge", "exit"] ∧
    ((generateStrategies rp v).strategies.map (·.id)).Nodup ∧
    ((generateStrategies rp v).strategies.map (·.type)).Nodup := by
  refine ⟨rfl, rfl, rfl, ?_, ?_⟩
  · have h : (generateStrategies rp v).strategies.map (·.id) = ["A", "B", "C", "D"] := rfl
    rw [h]
    decide
  · have h : (generateStrategies rp v).strategies.map (·.type) =
        ["aggressive", "conservative", "hedge", "exit"] := rfl
    rw [h]
    decide


lemma jsMax_eq_max (a b : ℚ) : jsMax a b = max a b := by
  show (if b ≤ a then a else b) = max a b
  rcases le_or_lt b a with h | h
  · rw [if_pos h, max_eq_left h]
  · rw [if_neg (not_le.mpr h), max_eq_right h.le]

lemma jsMin_eq_min (a b : ℚ) : jsMin a b = min a b := by
  show (if a ≤ b then a else b) = min a b
  rcases le_or_lt a b with h | h
  · rw [if_pos h, min_eq_left h]
  · rw [if_neg (not_le.mpr h), min_eq_right h.le]

/-- Case analysis of a `if xs.isEmpty then d else xs` fallback field. -/
lemma fallbackField (m d : List String) (hd : d ≠ []) :
    (if m.isEmpty then d else m) ≠ [] ∧
    ((if m.isEmpty then d else m) = m ∧ m ≠ [] ∨
     (if m.isEmpty then d else m) = d ∧ m = []) := by
  cases h : m.isEmpty
  · have hm : m ≠ [] := by
      intro he
      rw [he] at h
      simp at h
    simp [h, hm]
  · have hm : m = [] := by
      cases m with
      | nil => rfl
      | cons a l => exact absurd h (by simp)
    simp [h, hm, hd]

/-- C4: every list returned by `analyzeVariables` is non-empty, and a dimension
with zero keyword matches equals exactly the fixed default list for that
dimension — it is either the matched list (non-empty) or, when the match is
empty, wholesale the default list, never a mix. -/
theorem C4_nonempty_defaults (rp : ReframedProblem) :
    ((analyzeVariables rp).goals ≠ [] ∧ (analyzeVariables rp).keyVariables ≠ [] ∧
     (analyzeVariables rp).hardConstraints ≠ [] ∧ (analyzeVariables rp).uncertainties ≠ []) ∧
    ((analyzeVariables rp).goals = matchKeywords (combinedTextOf rp) GOAL_KEYWORDS ∧
        matchKeywords (combinedTextOf rp) GOAL_KEYWORDS ≠ [] ∨
      (analyzeVariables rp).goals = getDefaultGoals ∧
        matchKeywords (combinedTextOf rp) GOAL_KEYWORDS = []) ∧
    ((analyzeVariables rp).keyVariables = matchKeywords (combinedTextOf rp) VARIABLE_KEYWORDS ∧
        matchKeywords (combinedTextOf rp) VARIABLE_KEYWORDS ≠ [] ∨
      (analyzeVariables rp).keyVariables = getDefaultVariables ∧
        matchKeywords (combinedTextOf rp) VARIABLE_KEYWORDS = []) ∧
    ((analyzeVariables rp).hardConstraints = matchKeywords (combinedTextOf rp) CONSTRAINT_KEYWORDS ∧
        matchKeywords (combinedTextOf rp) CONSTRAINT_KEYWORDS ≠ [] ∨
      (analyzeVariables rp).hardConstraints = getDefaultConstraints ∧
        matchKeywords (combinedTextOf rp) CONSTRAINT_KEYWORDS = []) ∧
    ((analyzeVariables rp).uncertainties = matchKeywords (combinedTextOf rp) UNCERTAINTY_KEYWORDS ∧
        matchKeywords (combinedTextOf rp) UNCERTAINTY_KEYWORDS ≠ [] ∨
      (analyzeVariables rp).uncertainties = getDefaultUncertainties ∧
        matchKeywords (combinedTextOf rp) UNCERTAINTY_KEYWORDS = []) := by
  have hg : (analyzeVariables rp).goals =
      (if (matchKeywords (combinedTextOf rp) GOAL_KEYWORDS).isEmpty then getDefaultGoals
       else matchKeywords (combinedTextOf rp) GOAL_KEYWORDS) := rfl
  have hk : (analyzeVariables rp).keyVariables =
      (if (matchKeywords (combinedTextOf rp) VARIABLE_KEYWORDS).isEmpty then getDefaultVariables
       else matchKeywords (combinedTextOf rp) VARIABLE_KEYWORDS) := rfl
  have hc : (analyzeVariables rp).hardConstraints =
      (if (matchKeywords (combinedTextOf rp) CONSTRAINT_KEYWORDS).isEmpty then getDefaultConstraints
       else matchKeywords (combinedTextOf rp) CONSTRAINT_KEYWORDS) := rfl
  have hu : (analyzeVariables rp).uncertainties =
      (if (matchKeywords (combinedTextOf rp) UNCERTAINTY_KEYWORDS).isEmpty then getDefaultUncertainties
       else matchKeywords (combinedTextOf rp) UNCERTAINTY_KEYWORDS) := rfl
  rw [hg, hk, hc, hu]
  have g1 := fallbackField (matchKeywords (combinedTextOf rp) GOAL_KEYWORDS)
    getDefaultGoals (by decide)
  have g2 := fallbackField (matchKeywords (combinedTextOf rp) VARIABLE_KEYWORDS)
    getDefaultVariables (by decide)
  have g3 := fallbackField (matchKeywords (combinedTextOf rp) CONSTRAINT_KEYWORDS)
    getDefaultConstraints (by decide)
  have g4 := fallbackField (matchKeywords (combinedTextOf rp) UNCERTAINTY_KEYWORDS)
    getDefaultUncertainties (by decide)
  exact ⟨⟨g1.1, g2.1, g3.1, g4.1⟩, g1.2, g2.2, g3.2, g4.2⟩

/-- C5: the uncertainty adjustment computes `level = min(count/4, 1)`, subtracts
`5*level` from the buckets at index 1 and 2, adds `5/2*level` (that is, 2.5*level)
to every other bucket, and clamps each result into `[5, 50]`; descriptions and
list length are preserved. -/
theorem C5_uncertainty_adjustment (ds : List OutcomeDistribution) (us : List String)
    (i : ℕ) (h : i < ds.length) :
    (adjustForUncertainties ds us).length = ds.length ∧
    (adjustForUncertainties ds us)[i]? = some
      { probability :=
          if i = 1 ∨ i = 2 then
            max 5 (min 50 ((ds.get ⟨i, h⟩).probability -
              5 * min ((us.length : ℚ) / 4) 1))
          else
            max 5 (min 50 ((ds.get ⟨i, h⟩).probability +
              5 / 2 * min ((us.length : ℚ) / 4) 1)),
        description := (ds.get ⟨i, h⟩).description } := by
  constructor
  · simp [adjustForUncertainties]
  · simp only [adjustForUncertainties, List.getElem?_map, List.getElem?_enum,
      List.getElem?_eq_getElem h, Option.map_some', Option.some.injEq]
    rw [jsMax_eq_max, jsMin_eq_min]
    by_cases hc : i = 1 ∨ i = 2
    · have hb : (i == 1 || i == 2) = true := by
        rcases hc with rfl | rfl <;> simp
      rw [if_pos hc, if_pos hb]
      simp [List.get_eq_getElem, sub_eq_add_neg, neg_mul]
    · have hb : (i == 1 || i == 2) = false := by
        rcases eq_or_ne i 1 with h1 | h1
        · exact absurd (Or.inl h1) hc
        · rcases eq_or_ne i 2 with h2 | h2
          · exact absurd (Or.inr h2) hc
          · simp [h1, h2]
      rw [if_neg hc, if_neg (by simp [hb])]
      simp [List.get_eq_getElem]

/-- Witness for C5 at a concrete input. -/
theorem C5_uncertainty_adjustment_witness :
    (adjustForUncertainties [⟨20, "a"⟩, ⟨35, "b"⟩] ["u"]).length = 2 ∧
    (adjustForUncertainties [⟨20, "a"⟩, ⟨35, "b"⟩] ["u"])[0]? = some ⟨165/8, "a"⟩ := by
  have h := C5_uncertainty_adjustment [⟨20, "a"⟩, ⟨35, "b"⟩] ["u"] 0 (by norm_num)
  refine ⟨h.1, ?_⟩
  rw [h.2]
  norm_num

/-- C9: for every strategy space produced by `generateStrategies` the template
lookup in `analyzeRisk` succeeds for every strategy (the generic fallback branch
is unreachable in the full pipeline); for a strategy whose type is absent from
the template table the result is exactly the generic 25/50/25 three-bucket
distribution. -/
theorem C9_template_lookup :
    (∀ (rp : ReframedProblem) (v : VariablesAndConstraints),
      ∀ s ∈ (generateStrategies rp v).strategies,
        (DISTRIBUTION_TEMPLATES.find? (fun t => t.strategyType == s.type)).isSome = true) ∧
    (∀ (s : Strategy) (v : VariablesAndConstraints),
      (∀ t ∈ DISTRIBUTION_TEMPLATES, t.strategyType ≠ s.type) →
      analyzeRiskOne s v = ⟨s.id, s.name,
        [⟨25, "结果好于预期"⟩, ⟨50, "结果符合预期"⟩, ⟨25, "结果低于预期"⟩]⟩) := by
  constructor
  · intro rp v s hs
    simp only [generateStrategies, STRATEGY_CONFIGS, List.map_cons, List.map_nil,
      List.mem_cons, List.not_mem_nil, or_false] at hs
    rcases hs with h | h | h | h <;> rw [h] <;> rfl
  · intro s v h
    have hf : DISTRIBUTION_TEMPLATES.find? (fun t => t.strategyType == s.type) = none := by
      rw [List.find?_eq_none]
      intro t ht
      simp only [beq_eq_false_iff_ne, ne_eq, Bool.not_eq_true]
      exact fun he => h t ht (by exact_mod_cast he)
    unfold analyzeRiskOne
    rw [hf]

/-- Witness for C9: lookup succeeds for a generated strategy; a foreign type
gets the generic distribution. -/
theorem C9_template_lookup_witness :
    (DISTRIBUTION_TEMPLATES.find? (fun t => t.strategyType ==
      ((generateStrategies ⟨"x", "y", []⟩ ⟨[], [], [], []⟩).strategies.headI.type))).isSome = true ∧
    analyzeRiskOne ⟨"Z", "z", "unknown", "", [], "", [], ""⟩ ⟨[], [], [], []⟩ =
      ⟨"Z", "z", [⟨25, "结果好于预期"⟩, ⟨50, "结果符合预期"⟩, ⟨25, "结果低于预期"⟩]⟩ := by
  constructor
  · exact C9_template_lookup.1 ⟨"x", "y", []⟩ ⟨[], [], [], []⟩ _ (by
      simp only [generateStrategies, STRATEGY_CONFIGS, List.map_cons, List.headI]
      exact List.mem_cons_self _ _)
  · exact C9_template_lookup.2 ⟨"Z", "z", "unknown", "", [], "", [], ""⟩ ⟨[], [], [], []⟩
      (by decide)

/-- C10: the conditional extras in strategy generation are type-specific — the
aggressive strategy has 4 preconditions exactly when "资金储备" is a key
variable (3 otherwise) while the other three always have 3; only the
conservative strategy's trigger points depend on the uncertainties (4 exactly
when "政策变化" is present, else 3), aggressive and hedge always have 3 trigger
points and exit always has 4. -/
theorem C10_conditional_extras (rp : ReframedProblem) (v : VariablesAndConstraints) :
    (generateStrategies rp v).strategies.map (fun s => s.preconditions.length) =
      [if v.keyVariables.contains ("资金储备") then 4 else 3, 3, 3, 3] ∧
    (generateStrategies rp v).strategies.map (fun s => s.triggerPoints.length) =
      [3, if v.uncertainties.contains ("政策变化") then 4 else 3, 3, 4] := by
  constructor
  · simp only [generateStrategies, STRATEGY_CONFIGS, List.map_cons, List.map_nil,
      generatePreconditions]
    cases h : v.keyVariables.contains ("资金储备") <;> simp [h]
  · simp only [generateStrategies, STRATEGY_CONFIGS, List.map_cons, List.map_nil,
      generateTriggerPoints]
    cases h : v.uncertainties.contains ("政策变化") <;> simp [h]


/-- The five topic keyword groups of `extractCoreThemes`, in source test order. -/
def themeRules : List (String × RPat) := [
  ("职业发展", careerPat), ("地理迁移", movePat), ("教育投资", eduPat),
  ("财务决策", financePat), ("人生关系", relationPat)]

/-- C6 counterexample: on the input `工作出国` both the career group (first) and
the relocation group match; the reframed string is the career template with the
`与`-joined pair of theme labels substituted, not with the single first theme
label as the claim states. -/
theorem C6_theme_counterexample :
    extractCoreThemes ("工作出国".data) = ["职业发展", "地理迁移"] ∧
    (analyzeAndReframe ("工作出国")).reframed =
      ("在当前个人条件（技能、经验、资源）和市场环境下，不同职业发展与地理迁移路径的长期收益与风险结构是什么？") ∧
    (analyzeAndReframe ("工作出国")).reframed ≠
      ("在当前个人条件（技能、经验、资源）和市场环境下，不同职业发展路径的长期收益与风险结构是什么？") := by
  refine ⟨rfl, rfl, ?_⟩
  decide

lemma generateReframedQuestion_eq_lookup (ts : List String) :
    generateReframedQuestion ts =
      ((reframeTemplates (String.intercalate ("与") ts)).lookup ts.headI).getD
        genericReframed := by
  cases ts with
  | nil => rfl
  | cons th rest =>
    unfold generateReframedQuestion
    cases hl : (reframeTemplates (String.intercalate ("与") (th :: rest))).lookup th with
    | none => simp [hl]
    | some tpl => simp [hl]

/-- C6 amended: the Reframer collects the list of ALL matching topic groups, in
the fixed test order career, relocation, education, finance, relationships
(the generic life-decision theme when none match), and the reframed string is
the fixed template keyed by the FIRST theme with the `与`-joined labels of all
matched themes substituted into it. -/
theorem C6_theme_reframing (p : String) :
    extractCoreThemes p.data ≠ [] ∧
    ((themeRules.filter (fun lp => rtest lp.2 p.data)).map (·.1) ≠ [] ∧
        extractCoreThemes p.data =
          (themeRules.filter (fun lp => rtest lp.2 p.data)).map (·.1) ∨
      (themeRules.filter (fun lp => rtest lp.2 p.data)).map (·.1) = [] ∧
        extractCoreThemes p.data = ["人生决策"]) ∧
    (analyzeAndReframe p).reframed =
      ((reframeTemplates (String.intercalate ("与") (extractCoreThemes p.data))).lookup
        (extractCoreThemes p.data).headI).getD genericReframed := by
  have hr : (analyzeAndReframe p).reframed =
      generateReframedQuestion (extractCoreThemes p.data) := rfl
  refine ⟨?_, ?_, hr.trans (generateReframedQuestion_eq_lookup _)⟩ <;>
  · cases h1 : rtest careerPat p.data <;> cases h2 : rtest movePat p.data <;>
      cases h3 : rtest eduPat p.data <;> cases h4 : rtest financePat p.data <;>
      cases h5 : rtest relationPat p.data <;>
      simp [extractCoreThemes, themeRules, List.filter, h1, h2, h3, h4, h5]


/-- Invariant of the bias-detection folds: accumulated bias types are distinct
and every accumulated type is recorded in the seen-set. -/
def DedupInv (st : BiasState) : Prop :=
  (st.2.map (·.type)).Nodup ∧ ∀ b ∈ st.2, b.type ∈ st.1

lemma dedupInv_push (st : BiasState) (b : CognitiveBias) (h : DedupInv st)
    (hb : b.type ∉ st.1) : DedupInv (st.1 ++ [b.type], st.2 ++ [b]) := by
  obtain ⟨h1, h2⟩ := h
  constructor
  · rw [List.map_append]
    rw [List.nodup_append]
    refine ⟨h1, by simp, ?_⟩
    intro x hx
    obtain ⟨a, ha, rfl⟩ := List.mem_map.mp hx
    simp only [List.map_cons, List.map_nil, List.mem_cons, List.not_mem_nil, or_false]
    intro he
    exact hb (he ▸ h2 a ha)
  · intro b2 hb2
    rcases List.mem_append.mp hb2 with h | h
    · exact List.mem_append_left _ (h2 _ h)
    · simp only [List.mem_singleton] at h
      subst h
      exact List.mem_append_right _ (by simp)

lemma dedupInv_pushType (st : BiasState) (ty : String) (h : DedupInv st) :
    DedupInv (st.1 ++ [ty], st.2) :=
  ⟨h.1, fun b hb => List.mem_append_left _ (h.2 b hb)⟩

lemma contains_false_notMem (l : List String) (a : String)
    (h : l.contains a = false) : a ∉ l := by
  intro hm
  rw [List.contains, List.elem_eq_mem, decide_eq_false_iff_not] at h
  exact h hm

lemma detectStep_inv (text : Chars) (st : BiasState) (rule : BiasRule)
    (h : DedupInv st) : DedupInv (detectStep text st rule) := by
  unfold detectStep
  by_cases h1 : st.1.contains rule.type = true
  · rw [if_pos h1]
    exact h
  · rw [if_neg h1]
    by_cases h2 : (rule.patterns.any fun pattern => rtest pattern text) = true
    · rw [if_pos h2]
      exact dedupInv_push st _ h
        (contains_false_notMem _ _ (Bool.not_eq_true _ ▸ h1))
    · rw [if_neg h2]
      exact h

lemma inferStep_inv (element : String) (st : BiasState) (kb : String × String)
    (h : DedupInv st) : DedupInv (inferStep element st kb) := by
  unfold inferStep
  by_cases h1 : (sContains element kb.1 && !st.1.contains kb.2) = true
  · rw [if_pos h1]
    have hni : kb.2 ∉ st.1 := by
      have := (Bool.and_eq_true _ _).mp h1
      exact contains_false_notMem _ _ (by
        have := this.2
        cases he : st.1.contains kb.2
        · rfl
        · rw [he] at this
          exact absurd this (by simp))
    cases hf : BIAS_RULES.find? (fun r => r.type == kb.2) with
    | none => exact dedupInv_pushType st _ h
    | some rule =>
      have hty : rule.type = kb.2 := by
        have := List.find?_some hf
        exact beq_iff_eq.mp this
      have := dedupInv_push st
        ⟨rule.type, rule.typeLabel, ("从表述中检测到：") ++ element, rule.mitigation⟩ h
        (by simpa [hty] using hni)
      simpa [hty] using this
  · rw [if_neg h1]
    exact h

lemma mergeStep_inv (st : BiasState) (b : CognitiveBias)
    (h : DedupInv st) : DedupInv (mergeStep st b) := by
  unfold mergeStep
  by_cases h1 : st.1.contains b.type = true
  · rw [if_pos h1]
    exact h
  · rw [if_neg h1]
    exact dedupInv_push st _ h (contains_false_notMem _ _ (Bool.not_eq_true _ ▸ h1))

lemma foldl_inv {α : Type} (f : BiasState → α → BiasState)
    (hf : ∀ st x, DedupInv st → DedupInv (f st x)) :
    ∀ (l : List α) (st : BiasState), DedupInv st → DedupInv (List.foldl f st l) := by
  intro l
  induction l with
  | nil => exact fun st h => h
  | cons x xs ih => exact fun st h => ih _ (hf st x h)

lemma detect_inv (text : Chars) (st : BiasState) (h : DedupInv st) :
    DedupInv (List.foldl (detectStep text) st BIAS_RULES) :=
  foldl_inv _ (detectStep_inv text) _ _ h

lemma infer_inv (elements : List String) :
    DedupInv (elements.foldl
      (fun st element => EMOTIONAL_BIAS_MAP.foldl (inferStep element) st) ([], [])) := by
  refine foldl_inv _ ?_ _ _ ⟨by simp, by simp⟩
  intro st e h
  exact foldl_inv _ (inferStep_inv e) _ _ h

/-- The types of the text-detected biases are distinct. -/
lemma detectBiases_nodup (text : Chars) :
    ((detectBiasesFromText text).map (·.type)).Nodup :=
  (detect_inv text ([], []) ⟨by simp, by simp⟩).1

/-- The types of the emotion-inferred biases are distinct. -/
lemma inferBiases_nodup (elements : List String) :
    ((inferBiasesFromEmotions elements).map (·.type)).Nodup :=
  (infer_inv elements).1

/-- A type-distinct bias list paired with its own type list satisfies the invariant. -/
lemma selfState_inv (bs : List CognitiveBias) (h : (bs.map (·.type)).Nodup) :
    DedupInv ((bs.map (·.type), bs)) := by
  constructor
  · exact h
  · intro b hb
    have hb2 : b ∈ bs := hb
    show b.type ∈ bs.map (·.type)
    exact List.mem_map_of_mem _ hb2

/-- The initial state of the merge fold satisfies the invariant. -/
lemma textBias_state_inv (text : Chars) :
    DedupInv (((detectBiasesFromText text).map (·.type), detectBiasesFromText text)) :=
  selfState_inv (detectBiasesFromText text) (detectBiases_nodup text)

/-- The merge fold of `analyzeBias` appends exactly the biases whose type is
not in the initial seen-set, in arrival order. -/
lemma mergeFold_eq (emo : List CognitiveBias) :
    ∀ (types : List String) (acc : List CognitiveBias),
      (emo.map (·.type)).Nodup →
      (emo.foldl mergeStep (types, acc)).2 =
        acc ++ emo.filter (fun b => !(types.contains b.type)) := by
  induction emo with
  | nil => simp
  | cons b rest ih =>
    intro types acc hnd
    have hnd1 : (rest.map (·.type)).Nodup := (List.nodup_cons.mp hnd).2
    have hbm : b.type ∉ rest.map (·.type) := (List.nodup_cons.mp hnd).1
    rw [List.foldl_cons]
    by_cases hc : types.contains b.type = true
    · rw [show mergeStep (types, acc) b = (types, acc) from by
        unfold mergeStep; rw [if_pos hc]]
      rw [ih types acc hnd1]
      rw [show (b :: rest).filter (fun x => !(types.contains x.type)) =
          rest.filter (fun x => !(types.contains x.type)) from by
        rw [List.filter_cons, hc]
        simp]
    · have hcf : types.contains b.type = false := Bool.not_eq_true _ ▸ hc
      rw [show mergeStep (types, acc) b = (types ++ [b.type], acc ++ [b]) from by
        unfold mergeStep; rw [if_neg hc]]
      rw [ih _ _ hnd1]
      have hfeq : rest.filter (fun x => !((types ++ [b.type]).contains x.type)) =
          rest.filter (fun x => !(types.contains x.type)) := by
        apply List.filter_congr
        intro x hx
        have hxb : x.type ≠ b.type := fun he => hbm (he ▸ List.mem_map_of_mem _ hx)
        simp only [List.contains, List.elem_eq_mem, List.mem_append, List.mem_singleton]
        simp [hxb]
      rw [hfeq]
      rw [show (b :: rest).filter (fun x => !(types.contains x.type)) =
          b :: rest.filter (fun x => !(types.contains x.type)) from by
        rw [List.filter_cons, hcf]
        simp]
      simp

/-- `analyzeBias` merges: text biases first, then the inferred biases of new
types in arrival order; the generic entry appears only when both are empty. -/
lemma analyzeBias_merge (rp : ReframedProblem) :
    (analyzeBias rp).biases =
      (if (detectBiasesFromText rp.original.data ++
            (inferBiasesFromEmotions rp.emotionalElements).filter
              (fun b => !(((detectBiasesFromText rp.original.data).map (·.type)).contains
                 b.type))).isEmpty
       then [genericBias]
       else detectBiasesFromText rp.original.data ++
            (inferBiasesFromEmotions rp.emotionalElements).filter
              (fun b => !(((detectBiasesFromText rp.original.data).map (·.type)).contains
                 b.type))) := by
  have he : ((inferBiasesFromEmotions rp.emotionalElements).foldl mergeStep
      ((detectBiasesFromText rp.original.data).map (·.type),
       detectBiasesFromText rp.original.data)).2 =
      detectBiasesFromText rp.original.data ++
        (inferBiasesFromEmotions rp.emotionalElements).filter
          (fun b => !(((detectBiasesFromText rp.original.data).map (·.type)).contains
             b.type)) :=
    mergeFold_eq _ _ _ (inferBiases_nodup rp.emotionalElements)
  show (let allBiases := ((inferBiasesFromEmotions rp.emotionalElements).foldl mergeStep
      ((detectBiasesFromText rp.original.data).map (·.type),
       detectBiasesFromText rp.original.data)).2
    if allBiases.isEmpty then [genericBias] else allBiases) = _
  rw [he]

/-- C7: no two entries of the biases list share a type, and the list is the
text-detected biases (in rule order) followed by the emotion-inferred biases of
types not already detected (in arrival order) — or the single generic entry
when both parts are empty. -/
theorem C7_bias_uniqueness (rp : ReframedProblem) :
    (((analyzeBias rp).biases.map (·.type)).Nodup) ∧
    ((analyzeBias rp).biases =
        detectBiasesFromText rp.original.data ++
          (inferBiasesFromEmotions rp.emotionalElements).filter
            (fun b => !(((detectBiasesFromText rp.original.data).map (·.type)).contains
               b.type)) ∨
      detectBiasesFromText rp.original.data = [] ∧
        (inferBiasesFromEmotions rp.emotionalElements).filter
            (fun b => !(((detectBiasesFromText rp.original.data).map (·.type)).contains
               b.type)) = [] ∧
        (analyzeBias rp).biases = [genericBias]) := by
  have hm := analyzeBias_merge rp
  have hinv := foldl_inv mergeStep mergeStep_inv
    (inferBiasesFromEmotions rp.emotionalElements) _ (textBias_state_inv rp.original.data)
  have he := mergeFold_eq (inferBiasesFromEmotions rp.emotionalElements)
    ((detectBiasesFromText rp.original.data).map (·.type))
    (detectBiasesFromText rp.original.data) (inferBiases_nodup rp.emotionalElements)
  constructor
  · rw [hm]
    by_cases hie : (detectBiasesFromText rp.original.data ++
        (inferBiasesFromEmotions rp.emotionalElements).filter
          (fun b => !(((detectBiasesFromText rp.original.data).map (·.type)).contains
             b.type))).isEmpty = true
    · rw [if_pos hie]
      simp
    · rw [if_neg hie]
      have := hinv.1
      rw [he] at this
      exact this
  · by_cases hie : (detectBiasesFromText rp.original.data ++
        (inferBiasesFromEmotions rp.emotionalElements).filter
          (fun b => !(((detectBiasesFromText rp.original.data).map (·.type)).contains
             b.type))).isEmpty = true
    · right
      have h0 := List.isEmpty_iff.mp hie
      have h1 := List.append_eq_nil.mp h0
      refine ⟨h1.1, h1.2, ?_⟩
      rw [hm, if_pos hie]
    · left
      rw [hm, if_neg hie]


/-- When no rule pattern matches, the detection fold leaves its state unchanged. -/
lemma detectFold_no_match (text : Chars) :
    ∀ (rules : List BiasRule) (st : BiasState),
      (∀ rule ∈ rules, ∀ p ∈ rule.patterns, rtest p text = false) →
      List.foldl (detectStep text) st rules = st := by
  intro rules
  induction rules with
  | nil => exact fun st _ => rfl
  | cons r rs ih =>
    intro st h
    rw [List.foldl_cons]
    have hr : detectStep text st r = st := by
      unfold detectStep
      have hp : (r.patterns.any fun pattern => rtest pattern text) = false := by
        rw [List.any_eq_false]
        intro p hp
        rw [h r (List.mem_cons_self _ _) p hp]
        simp
      rw [hp]
      by_cases h1 : st.1.contains r.type = true
      · rw [if_pos h1]
      · rw [if_neg h1, if_neg (by simp)]
    rw [hr]
    exact ih st (fun rule hm p hp => h rule (List.mem_cons_of_mem _ hm) p hp)

/-- When the original text matches no bias rule pattern, text detection is empty. -/
lemma detect_empty (text : Chars)
    (h : ∀ rule ∈ BIAS_RULES, ∀ p ∈ rule.patterns, rtest p text = false) :
    detectBiasesFromText text = [] := by
  unfold detectBiasesFromText
  rw [detectFold_no_match text BIAS_RULES ([], []) h]

/-- Every bias accumulated by the detection fold has the type of some rule
(or was already accumulated). -/
lemma detectFold_types (text : Chars) (P : String → Prop) :
    ∀ (rules : List BiasRule) (st : BiasState),
      (∀ b ∈ st.2, P b.type) → (∀ r ∈ rules, P r.type) →
      ∀ b ∈ (List.foldl (detectStep text) st rules).2, P b.type := by
  intro rules
  induction rules with
  | nil => exact fun st h1 _ b hb => h1 b hb
  | cons r rs ih =>
    intro st h1 h2
    rw [List.foldl_cons]
    apply ih
    · intro b hb
      unfold detectStep at hb
      by_cases hc : st.1.contains r.type = true
      · rw [if_pos hc] at hb
        exact h1 b hb
      · rw [if_neg hc] at hb
        by_cases hp : (r.patterns.any fun pattern => rtest pattern text) = true
        · rw [if_pos hp] at hb
          have hb2 : b ∈ st.2 ++ [⟨r.type, r.typeLabel, r.description, r.mitigation⟩] := hb
          rcases List.mem_append.mp hb2 with h | h
          · exact h1 b h
          · rw [List.mem_singleton.mp h]
            exact h2 r (List.mem_cons_self _ _)
        · rw [if_neg hp] at hb
          exact h1 b hb
    · exact fun r2 hm => h2 r2 (List.mem_cons_of_mem _ hm)

/-- Every bias accumulated by one emotion-inference step has the type of some
`BIAS_RULES` rule (or was already accumulated). -/
lemma inferStep_types (e : String) (P : String → Prop) (st : BiasState)
    (kb : String × String) (h1 : ∀ b ∈ st.2, P b.type)
    (hr : ∀ r ∈ BIAS_RULES, P r.type) :
    ∀ b ∈ (inferStep e st kb).2, P b.type := by
  intro b hb
  unfold inferStep at hb
  by_cases hc : (sContains e kb.1 && !st.1.contains kb.2) = true
  · rw [if_pos hc] at hb
    cases hf : BIAS_RULES.find? (fun r => r.type == kb.2) with
    | none =>
      rw [hf] at hb
      exact h1 b hb
    | some rule =>
      rw [hf] at hb
      have hb2 : b ∈ st.2 ++
          [⟨rule.type, rule.typeLabel, ("从表述中检测到：") ++ e, rule.mitigation⟩] := hb
      rcases List.mem_append.mp hb2 with h | h
      · exact h1 b h
      · rw [List.mem_singleton.mp h]
        exact hr rule (List.mem_of_find?_eq_some hf)
  · rw [if_neg hc] at hb
    exact h1 b hb

/-- Every emotion-inferred bias has the type of some `BIAS_RULES` rule. -/
lemma infer_types (elements : List String) (P : String → Prop)
    (hr : ∀ r ∈ BIAS_RULES, P r.type) :
    ∀ b ∈ inferBiasesFromEmotions elements, P b.type := by
  have main : ∀ (els : List String) (st : BiasState), (∀ b ∈ st.2, P b.type) →
      ∀ b ∈ (els.foldl
        (fun st element => EMOTIONAL_BIAS_MAP.foldl (inferStep element) st) st).2,
        P b.type := by
    intro els
    induction els with
    | nil => exact fun st h1 b hb => h1 b hb
    | cons e es ih =>
      intro st h1
      rw [List.foldl_cons]
      apply ih
      have inner : ∀ (kbs : List (String × String)) (st2 : BiasState),
          (∀ b ∈ st2.2, P b.type) →
          ∀ b ∈ (List.foldl (inferStep e) st2 kbs).2, P b.type := by
        intro kbs
        induction kbs with
        | nil => exact fun st2 h2 b hb => h2 b hb
        | cons kb kbs2 ih2 =>
          intro st2 h2
          rw [List.foldl_cons]
          exact ih2 _ (inferStep_types e P st2 kb h2 hr)
      exact inner EMOTIONAL_BIAS_MAP st h1
  exact main elements ([], []) (by simp)

/-- C8: when the original text matches none of the bias rule patterns and the
emotional elements yield no inferred bias, `analyzeBias` returns exactly the
one generic "other" entry; conversely, whenever any bias is detected, no
"other" fallback entry appears. -/
theorem C8_fallback (rp : ReframedProblem) :
    ((∀ rule ∈ BIAS_RULES, ∀ p ∈ rule.patterns, rtest p rp.original.data = false) →
      inferBiasesFromEmotions rp.emotionalElements = [] →
      (analyzeBias rp).biases = [genericBias]) ∧
    (detectBiasesFromText rp.original.data ≠ [] ∨
        inferBiasesFromEmotions rp.emotionalElements ≠ [] →
      ∀ b ∈ (analyzeBias rp).biases, b.type ≠ ("other")) := by
  have hm := analyzeBias_merge rp
  constructor
  · intro h1 h2
    have hd : detectBiasesFromText rp.original.data = [] := detect_empty _ h1
    rw [hm, hd, h2]
    simp
  · intro hne b hb
    have hmne : detectBiasesFromText rp.original.data ++
        (inferBiasesFromEmotions rp.emotionalElements).filter
          (fun b => !(((detectBiasesFromText rp.original.data).map (·.type)).contains
             b.type)) ≠ [] := by
      intro hz
      have hz2 := List.append_eq_nil.mp hz
      rcases hne with hne | hne
      · exact hne hz2.1
      · have hd0 := hz2.1
        have hf0 := hz2.2
        rw [hd0] at hf0
        simp only [List.map_nil] at hf0
        have : inferBiasesFromEmotions rp.emotionalElements = [] := by
          have hall : ∀ b ∈ inferBiasesFromEmotions rp.emotionalElements,
              (!(([] : List String).contains b.type)) = true := by
            intro x hx
            simp [List.contains]
          rw [List.filter_eq_self.mpr hall] at hf0
          exact hf0
        exact hne this
    have hie : (detectBiasesFromText rp.original.data ++
        (inferBiasesFromEmotions rp.emotionalElements).filter
          (fun b => !(((detectBiasesFromText rp.original.data).map (·.type)).contains
             b.type))).isEmpty = false := by
      cases he : (detectBiasesFromText rp.original.data ++
          (inferBiasesFromEmotions rp.emotionalElements).filter
            (fun b => !(((detectBiasesFromText rp.original.data).map (·.type)).contains
               b.type))).isEmpty
      · rfl
      · exact absurd (List.isEmpty_iff.mp he) hmne
    rw [hm, if_neg (by rw [hie]; simp)] at hb
    have hro : ∀ r ∈ BIAS_RULES, r.type ≠ ("other") := by decide
    rcases List.mem_append.mp hb with h | h
    · exact detectFold_types rp.original.data (fun ty => ty ≠ ("other"))
        BIAS_RULES ([], []) (by simp) hro b h
    · exact infer_types rp.emotionalElements (fun ty => ty ≠ ("other")) hro b
        (List.mem_of_mem_filter h)

/-- Witness for C8: a pattern-free ASCII text with no emotional elements gets
exactly the generic entry; a text firing the group-pressure rule gets a
non-"other" first entry. -/
theorem C8_fallback_witness :
    (analyzeBias ⟨"xyzxyzxyz", "", []⟩).biases = [genericBias] ∧
    (analyzeBias ⟨"大家都这么说", "", []⟩).biases.headI.type ≠ ("other") := by
  constructor
  · exact (C8_fallback ⟨"xyzxyzxyz", "", []⟩).1 (by decide) (by decide)
  · exact (C8_fallback ⟨"大家都这么说", "", []⟩).2 (Or.inl (by decide))
      ((analyzeBias ⟨"大家都这么说", "", []⟩).biases.headI) (by decide)

end Boundary
